import Mathlib

/-!
Shallow embedding of `tester.py` (Nightpass Survivor Test Runner).

The program is a sequential test harness: it compiles Java sources, enumerates
input fixture files, runs the compiled program once per fixture with a timeout,
compares the produced output byte-for-byte against an expected file (or, in
benchmark mode, only records timings), tallies counters and exits 0/1.

The operating system is modelled by explicit oracles: directory listings are
`List String` of filenames, each test case's interaction with the filesystem
and the subprocess is a `TestEnv` record, and the compiler subprocess is a
`CompileOutcome`.  All functions below are direct translations of the
corresponding Python functions.
-/

namespace Tester

/-- The closed status set of a test result (`result['status']` in
`run_single_test`).  `unknown` is the initial placeholder value the result
dictionary is created with (line 141 of `tester.py`); the claims assert it
never survives to a returned result. -/
inductive Status where
  | unknown
  | skip
  | timeout
  | error
  | runtime_error
  | no_output
  | benchmark_complete
  | pass
  | wrong_output
deriving DecidableEq, Repr

/-- Outcome of invoking the program subprocess on one test case
(`subprocess.run` at lines 157-163): it either exceeds the 30s timeout
(`subprocess.TimeoutExpired`), raises some other exception while being
invoked, or terminates with an exit code and captured stderr text. -/
inductive ExecOutcome where
  | timedOut
  | raised (msg : String)
  | exited (code : Int) (stderrText : String)
deriving DecidableEq, Repr

/-- Environment oracle for one test case: what the filesystem and the
subprocess do when `run_single_test` touches them.
`expectedExists`/`expectedBytes` describe the expected-output file,
`actualExists`/`actualBytes` the output file the program leaves behind,
`exec` the subprocess outcome, `duration` the measured wall-clock time
(abstract units), `diffLines` the line list `difflib.unified_diff` returns
for a given context size `n`, and `diffRaises` whether reading the files for
the diff raises an exception. -/
structure TestEnv where
  expectedExists : Bool
  expectedBytes : List Nat
  exec : ExecOutcome
  actualExists : Bool
  actualBytes : List Nat
  duration : Nat
  diffLines : Nat → List String
  diffRaises : Bool

/-- One Test Result (the dictionary built by `run_single_test`). -/
structure TestResult where
  name : String
  status : Status
  duration : Nat
  error_message : String
  diff : Option String
deriving Repr

/-- Translation of `run_single_test` (lines 130-221 of `tester.py`).
The checks mirror the source order: expected-file check (skipped in
benchmark mode), then timeout/exception handling around the subprocess call,
then exit-code check, output-file check, and finally either
`benchmark_complete` or the byte-exact comparison (`filecmp.cmp` with
`shallow=False`), generating a diff truncated to 20 lines in verbose mode. -/
def run_single_test (input_file : String) (env : TestEnv)
    (verbose benchmark : Bool) : TestResult :=
  let result : TestResult :=
    { name := input_file
      status := .unknown
      duration := 0
      error_message := ""
      diff := none }
  if !benchmark && !env.expectedExists then
    { result with status := .skip, error_message := "No expected output file" }
  else
    match env.exec with
    | .timedOut =>
        { result with
          status := .timeout
          error_message := "Test timed out (30s limit)" }
    | .raised msg =>
        { result with status := .error, error_message := msg }
    | .exited code stderrText =>
        if code ≠ 0 then
          { result with
            status := .runtime_error
            duration := env.duration
            error_message := "Exit code: " ++ toString code ++
              (if stderrText ≠ "" then "\nStderr: " ++ stderrText.trim
               else "") }
        else if !env.actualExists then
          { result with
            status := .no_output
            duration := env.duration
            error_message := "No output file generated" }
        else if benchmark then
          { result with
            status := .benchmark_complete
            duration := env.duration }
        else if env.expectedBytes = env.actualBytes then
          { result with status := .pass, duration := env.duration }
        else
          { result with
            status := .wrong_output
            duration := env.duration
            diff := if verbose then
                some (if env.diffRaises then "Could not generate diff"
                      else String.join ((env.diffLines 3).take 20))
              else none }

/-- Character-list prefix test: `pre` is a prefix of `s`.  This is the
meaning of `str.startswith` and of a literal leading part of a glob
pattern, stated structurally over the code points of the strings. -/
def strStartsWith (s pre : String) : Bool :=
  pre.data.isPrefixOf s.data

/-- Character-list suffix test: `post` is a suffix of `s`, the meaning of a
literal trailing part of a glob pattern. -/
def strEndsWith (s post : String) : Bool :=
  post.data.isSuffixOf s.data

/-- Glob-pattern match used by `get_test_files` (lines 123-127): with no
filter the pattern is `*.txt` (a leading `*` in glob does not match names
beginning with a dot); with a filter `t` the pattern is `t_*.txt`, that is,
the name starts with `t_` and the remainder ends with `.txt`. -/
def matchesGlob (test_type : Option String) (name : String) : Bool :=
  match test_type with
  | none => strEndsWith name ".txt" && !strStartsWith name "."
  | some t =>
      strStartsWith name (t ++ "_") &&
      strEndsWith (String.mk (name.data.drop (t ++ "_").length)) ".txt"

/-- Translation of `get_test_files` (lines 118-128): if the fixture-input
directory is missing return `[]`; otherwise glob the directory listing with
the pattern, join each name onto the directory, and sort. -/
def get_test_files (dirExists : Bool) (dirFiles : List String)
    (test_type : Option String) : List String :=
  if !dirExists then []
  else
    ((dirFiles.filter (matchesGlob test_type)).map
      (fun name => "testcase_inputs/" ++ name)).mergeSort
      (fun a b => decide (a ≤ b))

/-- Outcome of the `javac` subprocess call in `compile_java`: an exit code
with captured stderr/stdout, `javac` missing from PATH
(`FileNotFoundError`), or any other exception. -/
inductive CompileOutcome where
  | exited (code : Int) (stderrText stdoutText : String)
  | javacMissing
  | raised (msg : String)
deriving DecidableEq, Repr

/-- Translation of `compile_java` (lines 80-116): fail if the source
directory is absent, fail if it holds no `*.java` files, invoke `javac` on
all of them and succeed exactly when it exits 0; any exception is a
failure. -/
def compile_java (srcDirExists : Bool) (srcFiles : List String)
    (outcome : CompileOutcome) : Bool :=
  if !srcDirExists then false
  else
    let java_files := srcFiles.filter
      (fun f => strEndsWith f ".java" && !strStartsWith f ".")
    if java_files = [] then false
    else
      match outcome with
      | .exited code _ _ => if code ≠ 0 then false else true
      | .javacMissing => false
      | .raised _ => false

/-- The Run Summary dictionary returned by `run_tests` (lines 363-370); on
the zero-test early return (line 238) `results` is empty. -/
structure Summary where
  total : Nat
  passed : Nat
  failed : Nat
  skipped : Nat
  completed : Nat
  results : List TestResult
deriving Repr

/-- One step of the counter accumulation in the loop of `run_tests`
(lines 271-306): the accumulator is `(passed, failed, skipped, completed)`
and exactly one component is incremented per result, every status other
than `skip`, `benchmark_complete` and `pass` counting as a failure. -/
def tally (acc : Nat × Nat × Nat × Nat) (st : Status) :
    Nat × Nat × Nat × Nat :=
  match st, acc with
  | .skip, (p, f, s, c) => (p, f, s + 1, c)
  | .benchmark_complete, (p, f, s, c) => (p, f, s, c + 1)
  | .pass, (p, f, s, c) => (p + 1, f, s, c)
  | _, (p, f, s, c) => (p, f + 1, s, c)

/-- Translation of `run_tests` (lines 223-370): enumerate the fixtures,
return the all-zero summary when none exist, otherwise run each test case
once in order and accumulate the counters. -/
def run_tests (dirExists : Bool) (dirFiles : List String)
    (envOf : String → TestEnv) (test_type : Option String)
    (verbose benchmark : Bool) : Summary :=
  let input_files := get_test_files dirExists dirFiles test_type
  if input_files = [] then
    { total := 0
      passed := 0
      failed := 0
      skipped := 0
      completed := 0
      results := [] }
  else
    let results := input_files.map
      (fun f => run_single_test f (envOf f) verbose benchmark)
    let counts := results.foldl (fun acc r => tally acc r.status)
      (0, 0, 0, 0)
    { total := input_files.length
      passed := counts.1
      failed := counts.2.1
      skipped := counts.2.2.1
      completed := counts.2.2.2
      results := results }

/-- The four closing banners of the reporter. -/
inductive Verdict where
  | allTestsPassed
  | allBenchmarksCompleted
  | noTestsFound
  | someFailed
deriving DecidableEq, Repr

/-- Selection of the closing banner from the final counters (lines 338-343
in benchmark mode, lines 350-361 in normal mode; the zero-test early return
at line 237 prints the no-tests banner as well).  In benchmark mode the
chain `failed == 0 and completed > 0` / `total == 0` / `failed > 0` has no
`else`, hence the `Option`. -/
def closingVerdict (benchmark : Bool) (total failed completed : Nat) :
    Option Verdict :=
  if benchmark then
    if failed = 0 ∧ 0 < completed then some .allBenchmarksCompleted
    else if total = 0 then some .noTestsFound
    else if 0 < failed then some .someFailed
    else none
  else
    if failed = 0 ∧ 0 < total then some .allTestsPassed
    else if total = 0 then some .noTestsFound
    else some .someFailed

/-- Translation of `main` (lines 391-422) after argument parsing: abort with
exit code 1 when compilation fails (before any test case runs, hence the
`none` summary), otherwise run the tests and exit per the contract at lines
416-422. -/
def main_run (srcDirExists : Bool) (srcFiles : List String)
    (compileOutcome : CompileOutcome) (dirExists : Bool)
    (dirFiles : List String) (envOf : String → TestEnv)
    (test_type : Option String) (verbose benchmark : Bool) :
    Nat × Option Summary :=
  if !compile_java srcDirExists srcFiles compileOutcome then (1, none)
  else
    let summary := run_tests dirExists dirFiles envOf test_type verbose
      benchmark
    if benchmark then
      (if 0 < summary.completed ∨ summary.total = 0 then 0 else 1,
       some summary)
    else
      (if summary.failed = 0 ∧ 0 < summary.total then 0 else 1,
       some summary)


/-- Environment of a test case whose subprocess exceeds the timeout. -/
def envTimeoutW : TestEnv :=
  { expectedExists := true
    expectedBytes := []
    exec := .timedOut
    actualExists := false
    actualBytes := []
    duration := 0
    diffLines := fun _ => []
    diffRaises := false }

/-- Environment of a passing test case: exit 0, output produced, contents
equal to the expected bytes. -/
def envPassW : TestEnv :=
  { expectedExists := true
    expectedBytes := [52, 50, 10]
    exec := .exited 0 ""
    actualExists := true
    actualBytes := [52, 50, 10]
    duration := 1
    diffLines := fun _ => []
    diffRaises := false }

/-- Environment of a wrong-output test case: contents differ in one byte. -/
def envWrongW : TestEnv :=
  { envPassW with
    actualBytes := [52, 51, 10]
    diffLines := fun _ => ["-42", "+43"] }

/-- Environment of a test case with no expected-output file. -/
def envSkipW : TestEnv :=
  { envPassW with expectedExists := false }
end Tester

namespace Tester

theorem run_single_test_status_irrel (f : String) (env : TestEnv) (v v' b : Bool) :
    (run_single_test f env v b).status = (run_single_test f env v' b).status := by
  unfold run_single_test
  dsimp only
  split
  · rfl
  · cases env.exec with
    | timedOut => rfl
    | raised msg => rfl
    | exited code se =>
      dsimp only
      split
      · rfl
      · split
        · rfl
        · split
          · rfl
          · split
            · rfl
            · rfl

theorem run_single_test_status_cases (f : String) (env : TestEnv) (v b : Bool) :
    (run_single_test f env v b).status ∈
      [Status.pass, Status.wrong_output, Status.runtime_error, Status.no_output,
       Status.timeout, Status.error, Status.skip, Status.benchmark_complete] := by
  unfold run_single_test
  dsimp only
  split
  · simp
  · cases env.exec with
    | timedOut => simp
    | raised msg => simp
    | exited code se =>
      dsimp only
      split
      · simp
      · split
        · simp
        · split
          · simp
          · split <;> simp

end Tester

namespace Tester

theorem run_single_test_skip_iff (f : String) (env : TestEnv) (v : Bool) :
    (run_single_test f env v false).status = Status.skip ↔
      env.expectedExists = false := by
  unfold run_single_test
  dsimp only
  split
  · next h => simp at h; simp [h]
  · next h =>
    simp at h
    cases env.exec with
    | timedOut => simp [h]
    | raised msg => simp [h]
    | exited code se =>
      dsimp only
      split
      · simp [h]
      · split
        · simp [h]
        · split
          · simp [h]
          · split <;> simp [h]

theorem run_single_test_bench_status (f : String) (env : TestEnv) (v : Bool) :
    (run_single_test f env v true).status ∈
      [Status.benchmark_complete, Status.runtime_error, Status.no_output,
       Status.timeout, Status.error] := by
  unfold run_single_test
  dsimp only
  split
  · next h => simp at h
  · cases env.exec with
    | timedOut => simp
    | raised msg => simp
    | exited code se =>
      dsimp only
      split
      · simp
      · split
        · simp
        · split
          · simp
          · next h => simp at h

theorem run_single_test_nonbench_ne_bc (f : String) (env : TestEnv) (v : Bool) :
    (run_single_test f env v false).status ≠ Status.benchmark_complete := by
  unfold run_single_test
  dsimp only
  split
  · simp
  · cases env.exec with
    | timedOut => simp
    | raised msg => simp
    | exited code se =>
      dsimp only
      split
      · simp
      · split
        · simp
        · split
          · next h => simp at h
          · split <;> simp

theorem tally_app_unknown (p f s c : Nat) :
    tally (p, f, s, c) Status.unknown = (p, f + 1, s, c) := rfl

theorem tally_app_skip (p f s c : Nat) :
    tally (p, f, s, c) Status.skip = (p, f, s + 1, c) := rfl

theorem tally_app_timeout (p f s c : Nat) :
    tally (p, f, s, c) Status.timeout = (p, f + 1, s, c) := rfl

theorem tally_app_error (p f s c : Nat) :
    tally (p, f, s, c) Status.error = (p, f + 1, s, c) := rfl

theorem tally_app_rte (p f s c : Nat) :
    tally (p, f, s, c) Status.runtime_error = (p, f + 1, s, c) := rfl

theorem tally_app_no_output (p f s c : Nat) :
    tally (p, f, s, c) Status.no_output = (p, f + 1, s, c) := rfl

theorem tally_app_bc (p f s c : Nat) :
    tally (p, f, s, c) Status.benchmark_complete = (p, f, s, c + 1) := rfl

theorem tally_app_pass (p f s c : Nat) :
    tally (p, f, s, c) Status.pass = (p + 1, f, s, c) := rfl

theorem tally_app_wrong (p f s c : Nat) :
    tally (p, f, s, c) Status.wrong_output = (p, f + 1, s, c) := rfl

theorem foldl_tally_sum (rs : List TestResult) (p f s c : Nat) :
    (rs.foldl (fun acc r => tally acc r.status) (p, f, s, c)).1 +
      (rs.foldl (fun acc r => tally acc r.status) (p, f, s, c)).2.1 +
      (rs.foldl (fun acc r => tally acc r.status) (p, f, s, c)).2.2.1 +
      (rs.foldl (fun acc r => tally acc r.status) (p, f, s, c)).2.2.2 =
      p + f + s + c + rs.length := by
  induction rs generalizing p f s c with
  | nil => simp
  | cons hd tl ih =>
    rw [List.foldl_cons]
    cases h : hd.status <;>
      simp only [h, tally_app_unknown, tally_app_skip, tally_app_timeout,
        tally_app_error, tally_app_rte, tally_app_no_output, tally_app_bc,
        tally_app_pass, tally_app_wrong] <;>
      rw [ih] <;> simp [List.length_cons] <;> omega

theorem foldl_tally_completed (rs : List TestResult) (p f s c : Nat)
    (h : ∀ r ∈ rs, r.status ≠ Status.benchmark_complete) :
    (rs.foldl (fun acc r => tally acc r.status) (p, f, s, c)).2.2.2 = c := by
  induction rs generalizing p f s c with
  | nil => rfl
  | cons hd tl ih =>
    rw [List.foldl_cons]
    have hhd := h hd (List.mem_cons_self hd tl)
    have htl : ∀ r ∈ tl, r.status ≠ Status.benchmark_complete :=
      fun r hr => h r (List.mem_cons_of_mem hd hr)
    cases hst : hd.status <;>
      simp only [hst, tally_app_unknown, tally_app_skip, tally_app_timeout,
        tally_app_error, tally_app_rte, tally_app_no_output, tally_app_bc,
        tally_app_pass, tally_app_wrong] <;>
      first
      | exact ih p f s c htl
      | exact ih (p + 1) f s c htl
      | exact ih p (f + 1) s c htl
      | exact ih p f (s + 1) c htl
      | exact absurd hst hhd

theorem foldl_tally_skipped (rs : List TestResult) (p f s c : Nat)
    (h : ∀ r ∈ rs, r.status ≠ Status.skip) :
    (rs.foldl (fun acc r => tally acc r.status) (p, f, s, c)).2.2.1 = s := by
  induction rs generalizing p f s c with
  | nil => rfl
  | cons hd tl ih =>
    rw [List.foldl_cons]
    have hhd := h hd (List.mem_cons_self hd tl)
    have htl : ∀ r ∈ tl, r.status ≠ Status.skip :=
      fun r hr => h r (List.mem_cons_of_mem hd hr)
    cases hst : hd.status <;>
      simp only [hst, tally_app_unknown, tally_app_skip, tally_app_timeout,
        tally_app_error, tally_app_rte, tally_app_no_output, tally_app_bc,
        tally_app_pass, tally_app_wrong] <;>
      first
      | exact ih p f s c htl
      | exact ih (p + 1) f s c htl
      | exact ih p (f + 1) s c htl
      | exact ih p f s (c + 1) htl
      | exact absurd hst hhd

theorem foldl_tally_passed (rs : List TestResult) (p f s c : Nat)
    (h : ∀ r ∈ rs, r.status ≠ Status.pass) :
    (rs.foldl (fun acc r => tally acc r.status) (p, f, s, c)).1 = p := by
  induction rs generalizing p f s c with
  | nil => rfl
  | cons hd tl ih =>
    rw [List.foldl_cons]
    have hhd := h hd (List.mem_cons_self hd tl)
    have htl : ∀ r ∈ tl, r.status ≠ Status.pass :=
      fun r hr => h r (List.mem_cons_of_mem hd hr)
    cases hst : hd.status <;>
      simp only [hst, tally_app_unknown, tally_app_skip, tally_app_timeout,
        tally_app_error, tally_app_rte, tally_app_no_output, tally_app_bc,
        tally_app_pass, tally_app_wrong] <;>
      first
      | exact ih p (f + 1) s c htl
      | exact ih p f (s + 1) c htl
      | exact ih p f s (c + 1) htl
      | exact absurd hst hhd

theorem foldl_tally_all_skip (rs : List TestResult) (p f s c : Nat)
    (h : ∀ r ∈ rs, r.status = Status.skip) :
    rs.foldl (fun acc r => tally acc r.status) (p, f, s, c) =
      (p, f, s + rs.length, c) := by
  induction rs generalizing p f s c with
  | nil => rfl
  | cons hd tl ih =>
    rw [List.foldl_cons]
    have hhd := h hd (List.mem_cons_self hd tl)
    have htl : ∀ r ∈ tl, r.status = Status.skip :=
      fun r hr => h r (List.mem_cons_of_mem hd hr)
    simp only [hhd, tally_app_skip]
    rw [ih (p) (f) (s + 1) (c) htl]
    simp only [List.length_cons, Prod.mk.injEq, true_and, and_true]
    omega

theorem foldl_tally_congr (rs1 rs2 : List TestResult)
    (h : rs1.map TestResult.status = rs2.map TestResult.status)
    (acc : Nat × Nat × Nat × Nat) :
    rs1.foldl (fun a r => tally a r.status) acc =
      rs2.foldl (fun a r => tally a r.status) acc := by
  induction rs1 generalizing rs2 acc with
  | nil =>
    cases rs2 with
    | nil => rfl
    | cons h2 t2 => simp at h
  | cons h1 t1 ih =>
    cases rs2 with
    | nil => simp at h
    | cons h2 t2 =>
      simp only [List.map_cons, List.cons.injEq] at h
      rw [List.foldl_cons, List.foldl_cons, h.1]
      exact ih t2 h.2 _

end Tester

namespace Tester

theorem run_tests_empty (dirExists : Bool) (dirFiles : List String)
    (envOf : String → TestEnv) (tt : Option String) (v b : Bool)
    (he : get_test_files dirExists dirFiles tt = []) :
    run_tests dirExists dirFiles envOf tt v b =
      { total := 0, passed := 0, failed := 0, skipped := 0, completed := 0,
        results := [] } := by
  unfold run_tests
  simp [he]

theorem run_tests_results_eq (dirExists : Bool) (dirFiles : List String)
    (envOf : String → TestEnv) (tt : Option String) (v b : Bool)
    (hne : get_test_files dirExists dirFiles tt ≠ []) :
    (run_tests dirExists dirFiles envOf tt v b).results =
      (get_test_files dirExists dirFiles tt).map
        (fun f => run_single_test f (envOf f) v b) := by
  unfold run_tests
  simp [hne]

theorem run_tests_counts (dirExists : Bool) (dirFiles : List String)
    (envOf : String → TestEnv) (tt : Option String) (v b : Bool) :
    ((run_tests dirExists dirFiles envOf tt v b).passed,
     (run_tests dirExists dirFiles envOf tt v b).failed,
     (run_tests dirExists dirFiles envOf tt v b).skipped,
     (run_tests dirExists dirFiles envOf tt v b).completed) =
      (run_tests dirExists dirFiles envOf tt v b).results.foldl
        (fun acc r => tally acc r.status) (0, 0, 0, 0) ∧
    (run_tests dirExists dirFiles envOf tt v b).total =
      (run_tests dirExists dirFiles envOf tt v b).results.length := by
  unfold run_tests
  by_cases he : get_test_files dirExists dirFiles tt = []
  · simp [he]
  · simp [he]

end Tester

namespace Tester

theorem run_single_test_bench_ne_skip (f : String) (env : TestEnv) (v : Bool) :
    (run_single_test f env v true).status ≠ Status.skip := by
  intro h
  have hmem := run_single_test_bench_status f env v
  rw [h] at hmem
  simp at hmem

theorem run_single_test_bench_ne_pass (f : String) (env : TestEnv) (v : Bool) :
    (run_single_test f env v true).status ≠ Status.pass := by
  intro h
  have hmem := run_single_test_bench_status f env v
  rw [h] at hmem
  simp at hmem

/-- C2: every enumerated test case yields exactly one result, every status is
in the closed set, total = passed + failed + skipped + completed, and
completed is zero outside benchmark mode. -/
theorem closed_status_set_and_counters (dirExists : Bool)
    (dirFiles : List String) (envOf : String → TestEnv) (tt : Option String)
    (verbose benchmark : Bool) :
    (run_tests dirExists dirFiles envOf tt verbose benchmark).results.length =
      (run_tests dirExists dirFiles envOf tt verbose benchmark).total ∧
    (∀ r ∈ (run_tests dirExists dirFiles envOf tt verbose benchmark).results,
      r.status ∈
        [Status.pass, Status.wrong_output, Status.runtime_error,
         Status.no_output, Status.timeout, Status.error, Status.skip,
         Status.benchmark_complete]) ∧
    (run_tests dirExists dirFiles envOf tt verbose benchmark).total =
      (run_tests dirExists dirFiles envOf tt verbose benchmark).passed +
      (run_tests dirExists dirFiles envOf tt verbose benchmark).failed +
      (run_tests dirExists dirFiles envOf tt verbose benchmark).skipped +
      (run_tests dirExists dirFiles envOf tt verbose benchmark).completed ∧
    (benchmark = false →
      (run_tests dirExists dirFiles envOf tt verbose benchmark).completed
        = 0) := by
  obtain ⟨hcounts, htotal⟩ :=
    run_tests_counts dirExists dirFiles envOf tt verbose benchmark
  have hpassed := congrArg (fun t => t.1) hcounts
  have hfailed := congrArg (fun t => t.2.1) hcounts
  have hskipped := congrArg (fun t => t.2.2.1) hcounts
  have hcompleted := congrArg (fun t => t.2.2.2) hcounts
  simp only at hpassed hfailed hskipped hcompleted
  refine ⟨htotal.symm, ?_, ?_, ?_⟩
  · intro r hr
    by_cases hne : get_test_files dirExists dirFiles tt = []
    · rw [run_tests_empty dirExists dirFiles envOf tt verbose benchmark hne]
        at hr
      simp at hr
    · rw [run_tests_results_eq dirExists dirFiles envOf tt verbose benchmark
        hne] at hr
      obtain ⟨f, _, rfl⟩ := List.mem_map.mp hr
      exact run_single_test_status_cases f (envOf f) verbose benchmark
  · rw [hpassed, hfailed, hskipped, hcompleted, htotal]
    have := foldl_tally_sum
      (run_tests dirExists dirFiles envOf tt verbose benchmark).results
      0 0 0 0
    omega
  · intro hb
    rw [hcompleted]
    apply foldl_tally_completed
    intro r hr
    by_cases hne : get_test_files dirExists dirFiles tt = []
    · rw [run_tests_empty dirExists dirFiles envOf tt verbose benchmark hne]
        at hr
      simp at hr
    · rw [run_tests_results_eq dirExists dirFiles envOf tt verbose benchmark
        hne] at hr
      obtain ⟨f, _, rfl⟩ := List.mem_map.mp hr
      subst hb
      exact run_single_test_nonbench_ne_bc f (envOf f) verbose

/-- C9: in benchmark mode the statuses skip, pass and wrong output never
occur — every status is benchmark complete or one of the four failure
statuses — and the skipped and passed counters are always zero. -/
theorem benchmark_mode_status_restriction (dirExists : Bool)
    (dirFiles : List String) (envOf : String → TestEnv) (tt : Option String)
    (verbose : Bool) :
    (∀ (f : String) (env : TestEnv) (v : Bool),
      (run_single_test f env v true).status ∈
        [Status.benchmark_complete, Status.runtime_error, Status.no_output,
         Status.timeout, Status.error]) ∧
    (run_tests dirExists dirFiles envOf tt verbose true).skipped = 0 ∧
    (run_tests dirExists dirFiles envOf tt verbose true).passed = 0 := by
  obtain ⟨hcounts, _⟩ := run_tests_counts dirExists dirFiles envOf tt verbose
    true
  have hskipped := congrArg (fun t => t.2.2.1) hcounts
  have hpassed := congrArg (fun t => t.1) hcounts
  simp only at hskipped hpassed
  have hmem : ∀ r ∈ (run_tests dirExists dirFiles envOf tt verbose
      true).results, r.status ≠ Status.skip ∧ r.status ≠ Status.pass := by
    intro r hr
    by_cases hne : get_test_files dirExists dirFiles tt = []
    · rw [run_tests_empty dirExists dirFiles envOf tt verbose true hne] at hr
      simp at hr
    · rw [run_tests_results_eq dirExists dirFiles envOf tt verbose true hne]
        at hr
      obtain ⟨f, _, rfl⟩ := List.mem_map.mp hr
      exact ⟨run_single_test_bench_ne_skip f (envOf f) verbose,
        run_single_test_bench_ne_pass f (envOf f) verbose⟩
  refine ⟨fun f env v => run_single_test_bench_status f env v, ?_, ?_⟩
  · rw [hskipped]
    exact foldl_tally_skipped _ 0 0 0 0 (fun r hr => (hmem r hr).1)
  · rw [hpassed]
    exact foldl_tally_passed _ 0 0 0 0 (fun r hr => (hmem r hr).2)

end Tester

namespace Tester

/-- C1: the exit code is always 0 or 1; it is 0 exactly when compilation
succeeded and, in benchmark mode, at least one test completed or zero tests
existed, or, in normal mode, at least one test ran and none failed. -/
theorem exit_code_contract (srcDirExists : Bool) (srcFiles : List String)
    (co : CompileOutcome) (dirExists : Bool) (dirFiles : List String)
    (envOf : String → TestEnv) (tt : Option String)
    (verbose benchmark : Bool) :
    ((main_run srcDirExists srcFiles co dirExists dirFiles envOf tt verbose
        benchmark).1 = 0 ∨
     (main_run srcDirExists srcFiles co dirExists dirFiles envOf tt verbose
        benchmark).1 = 1) ∧
    ((main_run srcDirExists srcFiles co dirExists dirFiles envOf tt verbose
        benchmark).1 = 0 ↔
      compile_java srcDirExists srcFiles co = true ∧
        ((benchmark = true ∧
            (0 < (run_tests dirExists dirFiles envOf tt verbose
                benchmark).completed ∨
             (run_tests dirExists dirFiles envOf tt verbose
                benchmark).total = 0)) ∨
         (benchmark = false ∧
            (run_tests dirExists dirFiles envOf tt verbose
              benchmark).failed = 0 ∧
            0 < (run_tests dirExists dirFiles envOf tt verbose
              benchmark).total))) := by
  unfold main_run
  by_cases hc : compile_java srcDirExists srcFiles co = true
  · simp only [hc, Bool.not_true, Bool.false_eq_true, if_false]
    cases benchmark with
    | true =>
      by_cases hcond : 0 < (run_tests dirExists dirFiles envOf tt verbose
          true).completed ∨ (run_tests dirExists dirFiles envOf tt verbose
          true).total = 0
      · simp [hcond, hc]
      · simp [hcond, hc]
    | false =>
      by_cases hcond : (run_tests dirExists dirFiles envOf tt verbose
          false).failed = 0 ∧ 0 < (run_tests dirExists dirFiles envOf tt
          verbose false).total
      · simp [hcond, hc]
      · simp [hcond, hc]
  · have hc' : compile_java srcDirExists srcFiles co = false :=
      Bool.not_eq_true _ ▸ Bool.eq_false_iff.mpr hc
    simp [hc']

/-- C8: an absent source directory, an empty set of Java source files, or a
non-zero compiler exit all make the build a failure, and the process then
stops with exit code 1 and no test summary. -/
theorem build_failure_aborts (srcDirExists : Bool) (srcFiles : List String)
    (co : CompileOutcome) (dirExists : Bool) (dirFiles : List String)
    (envOf : String → TestEnv) (tt : Option String)
    (verbose benchmark : Bool)
    (hfail : srcDirExists = false ∨
      srcFiles.filter (fun f => strEndsWith f ".java" && !strStartsWith f ".")
        = [] ∨
      ∃ code se so, co = CompileOutcome.exited code se so ∧ code ≠ 0) :
    compile_java srcDirExists srcFiles co = false ∧
    main_run srcDirExists srcFiles co dirExists dirFiles envOf tt verbose
      benchmark = (1, none) := by
  have hcj : compile_java srcDirExists srcFiles co = false := by
    unfold compile_java
    rcases hfail with h | h | ⟨code, se, so, hco, hcode⟩
    · simp [h]
    · cases srcDirExists with
      | false => simp
      | true => simp [h]
    · cases srcDirExists with
      | false => simp
      | true =>
        by_cases hf : srcFiles.filter
            (fun f => strEndsWith f ".java" && !strStartsWith f ".") = []
        · simp [hf]
        · simp [hf, hco, hcode]
  refine ⟨hcj, ?_⟩
  unfold main_run
  simp [hcj]

end Tester

namespace Tester

/-- C3: for an executed test case, a timeout gives status timeout, a
non-zero exit code gives runtime error with the code and stderr in the
message, a zero exit code with no output file gives no output, and any
other exception while invoking the program gives status error carrying the
exception text. -/
theorem execution_failure_taxonomy (f : String) (env : TestEnv)
    (verbose benchmark : Bool)
    (hrun : benchmark = true ∨ env.expectedExists = true) :
    (env.exec = ExecOutcome.timedOut →
      (run_single_test f env verbose benchmark).status = Status.timeout) ∧
    (∀ (code : Int) (se : String), env.exec = ExecOutcome.exited code se →
      code ≠ 0 →
      (run_single_test f env verbose benchmark).status =
        Status.runtime_error ∧
      (run_single_test f env verbose benchmark).error_message =
        "Exit code: " ++ toString code ++
          (if se ≠ "" then "\nStderr: " ++ se.trim else "")) ∧
    (∀ se : String, env.exec = ExecOutcome.exited 0 se →
      env.actualExists = false →
      (run_single_test f env verbose benchmark).status = Status.no_output) ∧
    (∀ msg : String, env.exec = ExecOutcome.raised msg →
      (run_single_test f env verbose benchmark).status = Status.error ∧
      (run_single_test f env verbose benchmark).error_message = msg) := by
  have hcond : (!benchmark && !env.expectedExists) = false := by
    rcases hrun with h | h <;> simp [h]
  refine ⟨?_, ?_, ?_, ?_⟩
  · intro hexec
    simp [run_single_test, hcond, hexec]
  · intro code se hexec hcode
    simp [run_single_test, hcond, hexec, hcode]
  · intro se hexec hact
    simp [run_single_test, hcond, hexec, hact]
  · intro msg hexec
    simp [run_single_test, hcond, hexec]

/-- C4: in normal mode, after a successful execution the status is pass
exactly when the expected and actual file contents are byte-identical, and
wrong output exactly when they differ. -/
theorem byte_exact_comparison (f : String) (env : TestEnv) (verbose : Bool)
    (se : String) (hexp : env.expectedExists = true)
    (hexec : env.exec = ExecOutcome.exited 0 se)
    (hact : env.actualExists = true) :
    ((run_single_test f env verbose false).status = Status.pass ↔
      env.expectedBytes = env.actualBytes) ∧
    ((run_single_test f env verbose false).status = Status.wrong_output ↔
      env.expectedBytes ≠ env.actualBytes) := by
  by_cases hbytes : env.expectedBytes = env.actualBytes
  · simp [run_single_test, hexp, hexec, hact, hbytes]
  · simp [run_single_test, hexp, hexec, hact, hbytes]

/-- C5: in normal mode a test case with no expected-output file is decided
as skip before the program runs, regardless of what the subprocess would
do; a skip increments only the skipped counter, never passed or failed; in
benchmark mode the expected-file check is not performed at all. -/
theorem missing_expected_file_skip (f : String) (env : TestEnv)
    (verbose : Bool) (hexp : env.expectedExists = false) :
    (∀ ex : ExecOutcome,
      (run_single_test f { env with exec := ex } verbose false).status =
        Status.skip) ∧
    (∀ p fl s c : Nat,
      tally (p, fl, s, c) Status.skip = (p, fl, s + 1, c)) ∧
    (∀ (env2 : TestEnv) (v e : Bool),
      run_single_test f { env2 with expectedExists := e } v true =
        run_single_test f env2 v true) := by
  refine ⟨?_, tally_app_skip, ?_⟩
  · intro ex
    simp [run_single_test, hexp]
  · intro env2 v e
    rfl

end Tester

namespace Tester

theorem string_append_left_cancel (a b c : String) (h : a ++ b = a ++ c) :
    b = c := by
  apply String.ext
  have hd := congrArg String.data h
  simp only [String.data_append] at hd
  exact List.append_cancel_left hd

theorem mergeSort_le_sorted (l : List String) :
    List.Sorted (· ≤ ·) (l.mergeSort (fun a b => decide (a ≤ b))) := by
  have h := @List.sorted_mergeSort String (fun a b => decide (a ≤ b))
    (fun a b c hab hbc => by
      simp only [decide_eq_true_eq] at *
      exact le_trans hab hbc)
    (fun a b => by simpa using le_total a b) l
  exact h.imp (fun hab => by simpa using hab)

/-- C6: test enumeration is the lexicographically sorted list of the glob
matches of the fixture directory, and with filter type1 only names starting
with the prefix are returned. -/
theorem test_enumeration_sorted_filtered (dirExists : Bool)
    (dirFiles : List String) (tt : Option String) :
    List.Sorted (· ≤ ·) (get_test_files dirExists dirFiles tt) ∧
    (dirExists = true →
      (get_test_files dirExists dirFiles tt).Perm
        ((dirFiles.filter (matchesGlob tt)).map
          (fun n => "testcase_inputs/" ++ n))) ∧
    (dirExists = false → get_test_files dirExists dirFiles tt = []) ∧
    (∀ p ∈ get_test_files dirExists dirFiles (some "type1"),
      ∃ name, p = "testcase_inputs/" ++ name ∧
        strStartsWith name "type1_" = true) ∧
    (∀ name ∈ dirFiles, strStartsWith name "type1_" = false →
      ("testcase_inputs/" ++ name) ∉
        get_test_files dirExists dirFiles (some "type1")) := by
  refine ⟨?_, ?_, ?_, ?_, ?_⟩
  · cases dirExists with
    | false => simp [get_test_files]
    | true =>
      unfold get_test_files
      simp only [Bool.not_true, Bool.false_eq_true, if_false]
      exact mergeSort_le_sorted _
  · intro hd
    subst hd
    unfold get_test_files
    simp only [Bool.not_true, Bool.false_eq_true, if_false]
    exact List.mergeSort_perm _ _
  · intro hd
    subst hd
    rfl
  · intro p hp
    cases dirExists with
    | false => simp [get_test_files] at hp
    | true =>
      unfold get_test_files at hp
      simp only [Bool.not_true, Bool.false_eq_true, if_false,
        List.mem_mergeSort, List.mem_map, List.mem_filter] at hp
      obtain ⟨name, ⟨_, hmatch⟩, rfl⟩ := hp
      refine ⟨name, rfl, ?_⟩
      simp only [matchesGlob, Bool.and_eq_true] at hmatch
      exact hmatch.1
  · intro name hname hpre hp
    cases dirExists with
    | false => simp [get_test_files] at hp
    | true =>
      unfold get_test_files at hp
      simp only [Bool.not_true, Bool.false_eq_true, if_false,
        List.mem_mergeSort, List.mem_map, List.mem_filter] at hp
      obtain ⟨m, ⟨_, hmatch⟩, heq⟩ := hp
      have hm : m = name := string_append_left_cancel _ _ _ heq
      subst hm
      simp only [matchesGlob, Bool.and_eq_true] at hmatch
      have hs : ("type1" ++ "_" : String) = "type1_" := rfl
      rw [hs] at hmatch
      rw [hmatch.1] at hpre
      simp at hpre

end Tester

namespace Tester

theorem map_run_single_status (files : List String)
    (envOf : String → TestEnv) (v1 v2 b : Bool) :
    (files.map (fun f => run_single_test f (envOf f) v1 b)).map
      TestResult.status =
    (files.map (fun f => run_single_test f (envOf f) v2 b)).map
      TestResult.status := by
  induction files with
  | nil => rfl
  | cons hd tl ih =>
    simp only [List.map_cons, List.cons.injEq]
    exact ⟨run_single_test_status_irrel hd (envOf hd) v1 v2 b, ih⟩

/-- C7: the verbose flag changes presentation only: per-test statuses, all
summary counters and the exit code agree between any two verbosity
settings; verbose mode additionally attaches, on wrong output, the unified
diff truncated to its first 20 lines, and without verbose no diff is
attached. -/
theorem verbose_flag_cosmetic (srcDirExists : Bool) (srcFiles : List String)
    (co : CompileOutcome) (dirExists : Bool) (dirFiles : List String)
    (envOf : String → TestEnv) (tt : Option String) (benchmark v1 v2 : Bool) :
    (run_tests dirExists dirFiles envOf tt v1 benchmark).results.map
        TestResult.status =
      (run_tests dirExists dirFiles envOf tt v2 benchmark).results.map
        TestResult.status ∧
    (run_tests dirExists dirFiles envOf tt v1 benchmark).total =
      (run_tests dirExists dirFiles envOf tt v2 benchmark).total ∧
    (run_tests dirExists dirFiles envOf tt v1 benchmark).passed =
      (run_tests dirExists dirFiles envOf tt v2 benchmark).passed ∧
    (run_tests dirExists dirFiles envOf tt v1 benchmark).failed =
      (run_tests dirExists dirFiles envOf tt v2 benchmark).failed ∧
    (run_tests dirExists dirFiles envOf tt v1 benchmark).skipped =
      (run_tests dirExists dirFiles envOf tt v2 benchmark).skipped ∧
    (run_tests dirExists dirFiles envOf tt v1 benchmark).completed =
      (run_tests dirExists dirFiles envOf tt v2 benchmark).completed ∧
    (main_run srcDirExists srcFiles co dirExists dirFiles envOf tt v1
        benchmark).1 =
      (main_run srcDirExists srcFiles co dirExists dirFiles envOf tt v2
        benchmark).1 ∧
    (∀ (f : String) (env : TestEnv) (b : Bool), env.diffRaises = false →
      (run_single_test f env true b).status = Status.wrong_output →
      (run_single_test f env true b).diff =
        some (String.join ((env.diffLines 3).take 20))) ∧
    (∀ (f : String) (env : TestEnv) (b : Bool),
      (run_single_test f env false b).diff = none) := by
  have hmap : (run_tests dirExists dirFiles envOf tt v1 benchmark).results.map
      TestResult.status =
      (run_tests dirExists dirFiles envOf tt v2 benchmark).results.map
        TestResult.status := by
    by_cases hne : get_test_files dirExists dirFiles tt = []
    · rw [run_tests_empty dirExists dirFiles envOf tt v1 benchmark hne,
        run_tests_empty dirExists dirFiles envOf tt v2 benchmark hne]
    · rw [run_tests_results_eq dirExists dirFiles envOf tt v1 benchmark hne,
        run_tests_results_eq dirExists dirFiles envOf tt v2 benchmark hne]
      exact map_run_single_status _ envOf v1 v2 benchmark
  obtain ⟨hcounts1, htot1⟩ :=
    run_tests_counts dirExists dirFiles envOf tt v1 benchmark
  obtain ⟨hcounts2, htot2⟩ :=
    run_tests_counts dirExists dirFiles envOf tt v2 benchmark
  have hfold : (run_tests dirExists dirFiles envOf tt v1
      benchmark).results.foldl (fun acc r => tally acc r.status)
        (0, 0, 0, 0) =
      (run_tests dirExists dirFiles envOf tt v2 benchmark).results.foldl
        (fun acc r => tally acc r.status) (0, 0, 0, 0) :=
    foldl_tally_congr _ _ hmap _
  have hctr := hcounts1.trans (hfold.trans hcounts2.symm)
  have hpassed := congrArg (fun t => t.1) hctr
  have hfailed := congrArg (fun t => t.2.1) hctr
  have hskipped := congrArg (fun t => t.2.2.1) hctr
  have hcompleted := congrArg (fun t => t.2.2.2) hctr
  simp only at hpassed hfailed hskipped hcompleted
  have htotal : (run_tests dirExists dirFiles envOf tt v1 benchmark).total =
      (run_tests dirExists dirFiles envOf tt v2 benchmark).total := by
    rw [htot1, htot2]
    have := congrArg List.length hmap
    simpa using this
  refine ⟨hmap, htotal, hpassed, hfailed, hskipped, hcompleted, ?_, ?_, ?_⟩
  · unfold main_run
    by_cases hc : compile_java srcDirExists srcFiles co = true
    · simp only [hc, Bool.not_true, Bool.false_eq_true, if_false]
      cases benchmark with
      | true => simp [hcompleted, htotal]
      | false => simp [hfailed, htotal]
    · have hc' : compile_java srcDirExists srcFiles co = false :=
        Bool.not_eq_true _ ▸ Bool.eq_false_iff.mpr hc
      simp [hc']
  · intro f env b hraise hstat
    by_cases h1 : (!b && !env.expectedExists) = true
    · simp [run_single_test, h1] at hstat
    · cases henv : env.exec with
      | timedOut => simp [run_single_test, h1, henv] at hstat
      | raised msg => simp [run_single_test, h1, henv] at hstat
      | exited code se =>
        by_cases h2 : code = 0
        · cases h3 : env.actualExists with
          | false => simp [run_single_test, h1, henv, h2, h3] at hstat
          | true =>
            cases b with
            | true => simp [run_single_test, h1, henv, h2, h3] at hstat
            | false =>
              have hexp : env.expectedExists = true := by simpa using h1
              by_cases h5 : env.expectedBytes = env.actualBytes
              · simp [run_single_test, hexp, henv, h2, h3, h5] at hstat
              · simp [run_single_test, hexp, henv, h2, h3, h5, hraise]
        · simp [run_single_test, h1, henv, h2] at hstat
  · intro f env b
    unfold run_single_test
    dsimp only
    split
    · rfl
    · cases env.exec with
      | timedOut => rfl
      | raised msg => rfl
      | exited code se =>
        dsimp only
        split
        · rfl
        · split
          · rfl
          · split
            · rfl
            · split
              · rfl
              · rfl

end Tester

namespace Tester

/-- C10: in normal mode, a run in which every enumerated test case is
skipped has a positive total, zero failed and zero passed, exits with code
0, and selects the all-tests-passed closing verdict. -/
theorem all_skipped_run_exits_zero (srcDirExists : Bool)
    (srcFiles : List String) (co : CompileOutcome) (dirExists : Bool)
    (dirFiles : List String) (envOf : String → TestEnv) (tt : Option String)
    (verbose : Bool)
    (hc : compile_java srcDirExists srcFiles co = true)
    (hne : get_test_files dirExists dirFiles tt ≠ [])
    (hnoexp : ∀ f, (envOf f).expectedExists = false) :
    0 < (run_tests dirExists dirFiles envOf tt verbose false).total ∧
    (run_tests dirExists dirFiles envOf tt verbose false).failed = 0 ∧
    (run_tests dirExists dirFiles envOf tt verbose false).passed = 0 ∧
    (run_tests dirExists dirFiles envOf tt verbose false).skipped =
      (run_tests dirExists dirFiles envOf tt verbose false).total ∧
    (main_run srcDirExists srcFiles co dirExists dirFiles envOf tt verbose
      false).1 = 0 ∧
    closingVerdict false
      (run_tests dirExists dirFiles envOf tt verbose false).total
      (run_tests dirExists dirFiles envOf tt verbose false).failed
      (run_tests dirExists dirFiles envOf tt verbose false).completed =
      some Verdict.allTestsPassed := by
  have hallskip : ∀ r ∈ (run_tests dirExists dirFiles envOf tt verbose
      false).results, r.status = Status.skip := by
    intro r hr
    rw [run_tests_results_eq dirExists dirFiles envOf tt verbose false hne]
      at hr
    obtain ⟨f, _, rfl⟩ := List.mem_map.mp hr
    exact (run_single_test_skip_iff f (envOf f) verbose).mpr (hnoexp f)
  obtain ⟨hcounts, htotal⟩ :=
    run_tests_counts dirExists dirFiles envOf tt verbose false
  rw [foldl_tally_all_skip _ 0 0 0 0 hallskip] at hcounts
  have hpassed := congrArg (fun t => t.1) hcounts
  have hfailed := congrArg (fun t => t.2.1) hcounts
  have hskipped := congrArg (fun t => t.2.2.1) hcounts
  simp only at hpassed hfailed hskipped
  have htpos : 0 < (run_tests dirExists dirFiles envOf tt verbose
      false).total := by
    rw [htotal, run_tests_results_eq dirExists dirFiles envOf tt verbose
      false hne, List.length_map]
    exact List.length_pos.mpr hne
  refine ⟨htpos, hfailed, hpassed, ?_, ?_, ?_⟩
  · rw [hskipped, htotal]
    simp
  · unfold main_run
    simp only [hc, Bool.not_true, Bool.false_eq_true, if_false]
    simp [hfailed, htpos]
  · unfold closingVerdict
    simp [hfailed, htpos]

end Tester

namespace Tester

theorem exit_code_contract_witness :
    (main_run true ["Main.java"] (CompileOutcome.exited 0 "" "") true
      ["a.txt"] (fun _ => envPassW) none false false).1 = 0 ∨
    (main_run true ["Main.java"] (CompileOutcome.exited 0 "" "") true
      ["a.txt"] (fun _ => envPassW) none false false).1 = 1 :=
  (exit_code_contract true ["Main.java"] (CompileOutcome.exited 0 "" "")
    true ["a.txt"] (fun _ => envPassW) none false false).1

theorem closed_status_set_and_counters_witness :
    (run_tests true ["a.txt"] (fun _ => envPassW) none false
      false).results.length =
    (run_tests true ["a.txt"] (fun _ => envPassW) none false false).total :=
  (closed_status_set_and_counters true ["a.txt"] (fun _ => envPassW) none
    false false).1

theorem execution_failure_taxonomy_witness :
    (run_single_test "t" envTimeoutW false false).status = Status.timeout :=
  (execution_failure_taxonomy "t" envTimeoutW false false (Or.inr rfl)).1 rfl

theorem byte_exact_comparison_witness :
    (run_single_test "t" envPassW false false).status = Status.pass ↔
      envPassW.expectedBytes = envPassW.actualBytes :=
  (byte_exact_comparison "t" envPassW false "" rfl rfl rfl).1

theorem missing_expected_file_skip_witness :
    (run_single_test "t" { envSkipW with exec := ExecOutcome.timedOut }
      false false).status = Status.skip :=
  (missing_expected_file_skip "t" envSkipW false rfl).1 ExecOutcome.timedOut

theorem test_enumeration_sorted_filtered_witness :
    List.Sorted (· ≤ ·) (get_test_files true ["b.txt", "a.txt"] none) :=
  (test_enumeration_sorted_filtered true ["b.txt", "a.txt"] none).1

theorem verbose_flag_cosmetic_witness :
    (run_tests true ["a.txt"] (fun _ => envWrongW) none true
      false).results.map TestResult.status =
    (run_tests true ["a.txt"] (fun _ => envWrongW) none false
      false).results.map TestResult.status :=
  (verbose_flag_cosmetic true ["Main.java"] (CompileOutcome.exited 0 "" "")
    true ["a.txt"] (fun _ => envWrongW) none false true false).1

theorem build_failure_aborts_witness :
    compile_java false ["Main.java"] (CompileOutcome.exited 0 "" "") =
      false :=
  (build_failure_aborts false ["Main.java"] (CompileOutcome.exited 0 "" "")
    true [] (fun _ => envPassW) none false false (Or.inl rfl)).1

theorem benchmark_mode_status_restriction_witness :
    (run_tests true ["a.txt"] (fun _ => envPassW) none false
      true).skipped = 0 :=
  (benchmark_mode_status_restriction true ["a.txt"] (fun _ => envPassW)
    none false).2.1

theorem all_skipped_run_exits_zero_witness :
    0 < (run_tests true ["a.txt"] (fun _ => envSkipW) none false
      false).total :=
  (all_skipped_run_exits_zero true ["Main.java"]
    (CompileOutcome.exited 0 "" "") true ["a.txt"] (fun _ => envSkipW) none
    false
    (by decide)
    (by
      unfold get_test_files
      simp only [Bool.not_true, Bool.false_eq_true, if_false]
      have hm : matchesGlob none "a.txt" = true := by decide
      simp [List.filter_cons, hm])
    (fun _ => rfl)).1

end Tester
